import Mathlib

/-!
Shallow embedding of the receipt-api Go program (src/main.go).

Modelling conventions:
* Go strings are Lean `String`s; all strings this program validates or scores
  are confined to ASCII by the RE2 character classes of the validator (`\w`,
  `\s`, `\d` are ASCII in RE2), so byte length and rune length coincide and
  the byte-based Go slicing `s[i:j]` is modelled on the character list
  `s.data`.
* Results of `strconv.ParseFloat` are modelled as the exact decimal value
  `num / 10^exp` that the accepted decimal literal denotes (structure
  `GoFloat`); IEEE-754 rounding of float64 is idealized as exact decimal
  arithmetic, which agrees with the double computation on all inputs
  considered here.  The accepted grammar is the decimal fragment of
  ParseFloat: optional sign, digits with digit-separating underscores, at
  most one dot, at least one digit (exponents, hex floats and inf/nan never
  occur for strings ending in `digit '.' digit digit`, the only strings the
  validator admits).
* The Go `%` on int is truncated remainder, modelled by `Int.tmod`.
* `math.Round` (half away from zero) and `math.Ceil` applied to an exact
  quotient `a / b` (b > 0) are modelled by `roundAway` and `goCeilDiv`.
* Go panics on out-of-range string slicing are modelled by `Option`:
  `none` means the computation panics.
* The `int`/`int64` arithmetic is modelled on unbounded `Int`; no value
  reachable from a validated receipt of realistic size approaches 2^63.
-/

namespace ReceiptAPI

/-- Item structure to be contained in receipts (src/main.go, type Item). -/
structure Item where
  ShortDescription : String
  Price : String
deriving DecidableEq

/-- Receipt structure (src/main.go, type Receipt). -/
structure Receipt where
  ID : String
  Retailer : String
  PurchaseDate : String
  PurchaseTime : String
  Items : List Item
  Total : String
deriving DecidableEq

/-! ### Character classes of the RE2 patterns and of the Go standard library -/

/-- RE2 `\w` (ASCII): `[0-9A-Za-z_]`. -/
def isWordChar (c : Char) : Bool :=
  c.isAlpha || c.isDigit || c == '_'

/-- RE2 `\s` (ASCII): `[\t\n\f\r ]`. -/
def isPerlSpace (c : Char) : Bool :=
  c == '\t' || c == '\n' || c == '\x0c' || c == '\r' || c == ' '

/-- unicode.IsSpace on the ASCII range: tab, newline, vertical tab, form
feed, carriage return, space (used by strings.TrimSpace). -/
def isGoSpace (c : Char) : Bool :=
  c == ' ' || c == '\t' || c == '\n' || c == '\x0b' || c == '\x0c' || c == '\r'

/-- strings.TrimSpace: drop leading and trailing white space. -/
def goTrimSpace (l : List Char) : List Char :=
  ((l.dropWhile isGoSpace).reverse.dropWhile isGoSpace).reverse

/-! ### Validator (src/main.go lines 242-312) -/

/-- CheckValidDescription (src/main.go lines 243-250):
`regexp.MatchString("^[\w\s\-&]+$", str)`.  The pattern is anchored at both
ends, so it matches exactly the nonempty strings all of whose characters lie
in the class. -/
def CheckValidDescription (str : String) : Bool :=
  !str.data.isEmpty &&
    str.data.all (fun c => isWordChar c || isPerlSpace c || c == '-' || c == '&')

/-- CheckPriceValidity (src/main.go lines 253-261):
`regexp.MatchString("\d+\.\d{2}$", str)`.  The pattern is anchored only at
the end, so a match exists exactly when the final four characters are
digit, dot, digit, digit (the `\d+` needs one digit just before the dot;
anything earlier in the string is unconstrained). -/
def CheckPriceValidity (str : String) : Bool :=
  match str.data.reverse with
  | c1 :: c2 :: c3 :: c4 :: _ => c1.isDigit && c2.isDigit && c3 == '.' && c4.isDigit
  | _ => false

/-- Item description pattern `^[\w\s\-]+$` used inside CheckItemsValidity
(src/main.go line 293). -/
def itemDescValid (str : String) : Bool :=
  !str.data.isEmpty &&
    str.data.all (fun c => isWordChar c || isPerlSpace c || c == '-')

/-- CheckItemsValidity (src/main.go lines 284-312): at least one item, and
the price of every item matches `\d+\.\d{2}$` while its description matches
`^[\w\s\-]+$`. -/
def CheckItemsValidity (receipt : Receipt) : Bool :=
  if receipt.Items.length < 1 then false
  else receipt.Items.all fun item =>
    CheckPriceValidity item.Price && itemDescValid item.ShortDescription

/-- Decimal digit value. -/
def digitVal (c : Char) : Nat := c.toNat - '0'.toNat

/-- Value of a digit string, most significant first. -/
def digitsVal (l : List Char) : Nat :=
  l.foldl (fun acc c => acc * 10 + digitVal c) 0

/-- isLeap (Go time package): `year%4 == 0 && (year%100 != 0 || year%400 == 0)`. -/
def isLeap (year : Nat) : Bool :=
  year % 4 == 0 && (year % 100 != 0 || year % 400 == 0)

/-- daysIn (Go time package): days in a month; February depends on the leap
year rule. -/
def daysIn (month year : Nat) : Nat :=
  if month == 2 then (if isLeap year then 29 else 28)
  else if month == 4 || month == 6 || month == 9 || month == 11 then 30
  else 31

/-- time.Parse("2006-01-02", s) succeeds: exactly `YYYY-MM-DD` with four
year digits (stdLongYear in the layout demands a leading digit and a
four-character atoi), two month digits, two day digits, the value fully
consumed, month in 1..12 and day in 1..daysIn(month, year). -/
def parseDate (s : String) : Bool :=
  match s.data with
  | [y1, y2, y3, y4, s1, m1, m2, s2, d1, d2] =>
    y1.isDigit && y2.isDigit && y3.isDigit && y4.isDigit &&
    s1 == '-' && s2 == '-' &&
    m1.isDigit && m2.isDigit && d1.isDigit && d2.isDigit &&
    (let year := digitsVal [y1, y2, y3, y4]
     let month := digitsVal [m1, m2]
     let day := digitsVal [d1, d2]
     decide (1 ≤ month) && decide (month ≤ 12) &&
       decide (1 ≤ day) && decide (day ≤ daysIn month year))
  | _ => false

/-- Tail of time.Parse("15:04", s) after the hour: a literal colon and
exactly two minute digits (stdZeroMinute is fixed-width), the value fully
consumed, hour < 24 and minute < 60. -/
def timeTailOK (hour : Nat) (rest : List Char) : Bool :=
  match rest with
  | [c, a, b] =>
    c == ':' && a.isDigit && b.isDigit &&
      decide (hour < 24) && decide (digitsVal [a, b] < 60)
  | _ => false

/-- time.Parse("15:04", s) succeeds.  stdHour in the layout is not
fixed-width: getnum takes two digits when available, otherwise one, so a
single-digit hour such as "9:30" is accepted. -/
def parseTime (s : String) : Bool :=
  match s.data with
  | c1 :: c2 :: rest =>
    if c1.isDigit && c2.isDigit then timeTailOK (digitsVal [c1, c2]) rest
    else if c1.isDigit then timeTailOK (digitVal c1) (c2 :: rest)
    else false
  | _ => false

/-- CheckValidTime (src/main.go lines 264-281): both the date and the time
must parse. -/
def CheckValidTime (dateString timeString : String) : Bool :=
  parseDate dateString && parseTime timeString

/-! ### Numeric parsing (strconv) -/

/-- A nonempty string of decimal digits. -/
def allDigits (l : List Char) : Bool :=
  !l.isEmpty && l.all Char.isDigit

/-- strconv.Atoi: optional sign followed by one or more digits, nothing
else.  (The int64 range check is irrelevant here: the program only applies
Atoi to two-character slices.) -/
def Atoi (l : List Char) : Option Int :=
  match l with
  | '+' :: rest => if allDigits rest then some (digitsVal rest : Int) else none
  | '-' :: rest => if allDigits rest then some (-(digitsVal rest : Int)) else none
  | _ => if allDigits l then some (digitsVal l : Int) else none

/-- The exact decimal value `num / 10^exp` denoted by a decimal literal
accepted by strconv.ParseFloat. -/
structure GoFloat where
  num : Int
  exp : Nat
deriving DecidableEq

/-- Every underscore in the mantissa must sit between two digits
(underscoreOK in strconv, on the decimal no-exponent fragment: a dot resets
the saw-digit state, so `1_.0` and `1._0` are rejected). -/
def undAux : Char → List Char → Bool
  | _, [] => true
  | p, '_' :: rest =>
    p.isDigit && (match rest with | r :: _ => r.isDigit | [] => false) &&
      undAux '_' rest
  | _, c :: rest => undAux c rest

/-- Underscore placement check for a whole (sign-stripped) mantissa. -/
def underscoresOK : List Char → Bool
  | [] => true
  | '_' :: _ => false
  | c :: rest => undAux c rest

/-- strconv.ParseFloat on the decimal fragment: optional sign, then a
mantissa of digits, at most one dot and digit-separating underscores,
containing at least one digit.  Exponents, hex floats, inf and nan are not
modelled: no such form can end in `digit '.' digit digit`, hence none
passes the validator of this program, and on other inputs both the Go
function and this model reject the strings this file ever evaluates. -/
def ParseFloat (s : String) : Option GoFloat :=
  let sm : Bool × List Char :=
    match s.data with
    | '+' :: rest => (false, rest)
    | '-' :: rest => (true, rest)
    | l => (false, l)
  let neg := sm.1
  let m := sm.2
  if !m.isEmpty &&
      m.all (fun c => c.isDigit || c == '.' || c == '_') &&
      decide (m.count '.' ≤ 1) &&
      m.any Char.isDigit &&
      underscoresOK m then
    let digitsOnly := m.filter (fun c => c != '_')
    let ip := digitsOnly.takeWhile (fun c => c != '.')
    let fp := (digitsOnly.dropWhile (fun c => c != '.')).drop 1
    let n : Int := (digitsVal ip * 10 ^ fp.length + digitsVal fp : Nat)
    some { num := if neg then -n else n, exp := fp.length }
  else none

/-! ### Integer forms of math.Round and math.Ceil on exact quotients -/

/-- math.Round (half away from zero) of the quotient `a / b`, `b > 0`. -/
def roundAway (a b : Int) : Int :=
  if 0 ≤ a then Int.fdiv (2 * a + b) (2 * b)
  else -(Int.fdiv (2 * (-a) + b) (2 * b))

/-- math.Ceil of the quotient `a / b`, `b > 0`:
the ceiling of a/b equals the floor of (a + b - 1)/b. -/
def goCeilDiv (a b : Int) : Int :=
  Int.fdiv (a + b - 1) b

/-! ### Scorer (src/main.go lines 75-187) -/

/-- GetAlphanumeric (src/main.go lines 106-114): number of characters of the
string that are letters or digits. -/
def GetAlphanumeric (str : String) : Int :=
  (str.data.countP (fun c => c.isAlpha || c.isDigit) : Nat)

/-- GetTotalCostPoints (src/main.go lines 117-133): parse the total, take
`costInt := int(math.Round(costFloat * 100))`, add 50 if `costInt % 100 == 0`
and 25 if `costInt % 25 == 0`; an unparseable total contributes 0. -/
def GetTotalCostPoints (costStr : String) : Int :=
  match ParseFloat costStr with
  | some c =>
    let costInt := roundAway (c.num * 100) ((10 : Int) ^ c.exp)
    (if costInt.tmod 100 = 0 then 50 else 0) +
      (if costInt.tmod 25 = 0 then 25 else 0)
  | none => 0

/-- Description-length contribution of one item (src/main.go lines 147-159):
if the trimmed description length is a multiple of 3, add
`int(math.Ceil(price * 0.2))` when the price parses, 0 otherwise.
Exactly, `price * 0.2 = num / (5 * 10^exp)`. -/
def itemDescPoints (item : Item) : Int :=
  let trimmed := goTrimSpace item.ShortDescription.data
  if trimmed.length % 3 = 0 then
    match ParseFloat item.Price with
    | some p => goCeilDiv p.num (5 * (10 : Int) ^ p.exp)
    | none => 0
  else 0

/-- The loop of GetItemPoints (src/main.go lines 141-160): `numItems` counts
items processed so far; every item whose 1-based index is even adds 5, and
each item adds its description-length contribution. -/
def itemLoop : Nat → List Item → Int
  | _, [] => 0
  | numItems, item :: rest =>
    let n := numItems + 1
    (if n % 2 = 0 then 5 else 0) + itemDescPoints item + itemLoop n rest

/-- GetItemPoints (src/main.go lines 136-163). -/
def GetItemPoints (receipt : Receipt) : Int :=
  itemLoop 0 receipt.Items

/-- GetDatePoints (src/main.go lines 166-175): Atoi of
`dateString[len(dateString)-2:]`; 6 points if the day is odd (Go `% 2 == 1`,
truncated remainder).  The slice panics when the string is shorter than two
characters, modelled as `none`. -/
def GetDatePoints (dateString : String) : Option Int :=
  if dateString.data.length < 2 then none
  else some (match Atoi (dateString.data.drop (dateString.data.length - 2)) with
    | some day => if day.tmod 2 = 1 then 6 else 0
    | none => 0)

/-- GetTimePoints (src/main.go lines 178-187): Atoi of `timeString[:2]`;
10 points if `14 <= hour && hour < 16`.  The slice panics when the string is
shorter than two characters, modelled as `none`. -/
def GetTimePoints (timeString : String) : Option Int :=
  if timeString.data.length < 2 then none
  else some (match Atoi (timeString.data.take 2) with
    | some hour => if 14 ≤ hour ∧ hour < 16 then 10 else 0
    | none => 0)

/-- GetReceiptPoints (src/main.go lines 75-99): the sum of the five rule
contributions; `none` when one of the slicing panics fires (date first, as
in the source order). -/
def GetReceiptPoints (receipt : Receipt) : Option Int :=
  match GetDatePoints receipt.PurchaseDate with
  | none => none
  | some datePts =>
    match GetTimePoints receipt.PurchaseTime with
    | none => none
    | some timePts =>
      some (GetAlphanumeric receipt.Retailer + GetTotalCostPoints receipt.Total +
        GetItemPoints receipt + datePts + timePts)

/-! ### JSON decoding (encoding/json, as invoked at src/main.go line 193)

The handler runs `_ = json.NewDecoder(r.Body).Decode(&receipt)` and discards
the error.  Decode into a struct does not stop at the first type mismatch:
a wrong-typed field saves an UnmarshalTypeError and decoding continues with
the remaining keys, so a body can both fail to decode (non-nil error) and
leave a fully populated receipt value.  The model below covers the JSON
forms the Receipt struct can meet (strings, numbers, arrays, objects);
`none` as a body stands for input that is not well-formed JSON, where
Decode reports a syntax error before unmarshalling anything. -/

/-- A JSON value (the fragment relevant to decoding a Receipt). -/
inductive Json where
  | str : String → Json
  | num : Int → Json
  | arr : List Json → Json
  | obj : List (String × Json) → Json

/-- ASCII lower-casing, the relevant fragment of the case folding
encoding/json uses for field-name matching. -/
def asciiLower (c : Char) : Char :=
  if 'A' ≤ c ∧ c ≤ 'Z' then Char.ofNat (c.toNat + 32) else c

/-- encoding/json key matching: an exact match on the field tag or name,
else a case-insensitive one (all six Receipt/Item field names stay distinct
under folding, so one combined predicate per field is equivalent). -/
def keyMatches (key field : String) : Bool :=
  key == field || key.data.map asciiLower == field.data.map asciiLower

/-- Decode a JSON value into a string field: a JSON string is stored; any
other value is an UnmarshalTypeError that leaves the field as it was and
marks the error flag, while decoding continues. -/
def decodeStringField (j : Json) (cur : String) : String × Bool :=
  match j with
  | .str s => (s, false)
  | _ => (cur, true)

/-- Decode one JSON value into an Item (fields tagged "shortDescription"
and "price"); a non-object element is an error that leaves the item
zero-valued. -/
def decodeItem (j : Json) : Item × Bool :=
  match j with
  | .obj fields =>
    fields.foldl (fun acc kv =>
      if keyMatches kv.1 "shortDescription" then
        let f := decodeStringField kv.2 acc.1.ShortDescription
        ({ acc.1 with ShortDescription := f.1 }, acc.2 || f.2)
      else if keyMatches kv.1 "price" then
        let f := decodeStringField kv.2 acc.1.Price
        ({ acc.1 with Price := f.1 }, acc.2 || f.2)
      else acc) (⟨"", ""⟩, false)
  | _ => (⟨"", ""⟩, true)

/-- Decode a JSON value into the Items slice: an array replaces the slice
with its element-wise decoding (failed elements stay zero-valued but are
still appended); any other value is an error that leaves the slice as it
was. -/
def decodeItems (j : Json) (cur : List Item) : List Item × Bool :=
  match j with
  | .arr l =>
    let decoded := l.map decodeItem
    (decoded.map Prod.fst, decoded.any Prod.snd)
  | _ => (cur, true)

/-- The zero value of the Receipt struct, the state of the variable before
Decode touches it. -/
def zeroReceipt : Receipt := ⟨"", "", "", "", [], ""⟩

/-- Decode step for one object key of a Receipt body: tags "retailer",
"purchaseDate", "purchaseTime", "items", "total", field name "ID";
unknown keys are ignored, later duplicates overwrite. -/
def decodeReceiptStep (acc : Receipt × Bool) (kv : String × Json) : Receipt × Bool :=
  if keyMatches kv.1 "retailer" then
    let f := decodeStringField kv.2 acc.1.Retailer
    ({ acc.1 with Retailer := f.1 }, acc.2 || f.2)
  else if keyMatches kv.1 "purchaseDate" then
    let f := decodeStringField kv.2 acc.1.PurchaseDate
    ({ acc.1 with PurchaseDate := f.1 }, acc.2 || f.2)
  else if keyMatches kv.1 "purchaseTime" then
    let f := decodeStringField kv.2 acc.1.PurchaseTime
    ({ acc.1 with PurchaseTime := f.1 }, acc.2 || f.2)
  else if keyMatches kv.1 "items" then
    let f := decodeItems kv.2 acc.1.Items
    ({ acc.1 with Items := f.1 }, acc.2 || f.2)
  else if keyMatches kv.1 "total" then
    let f := decodeStringField kv.2 acc.1.Total
    ({ acc.1 with Total := f.1 }, acc.2 || f.2)
  else if keyMatches kv.1 "ID" then
    let f := decodeStringField kv.2 acc.1.ID
    ({ acc.1 with ID := f.1 }, acc.2 || f.2)
  else acc

/-- Decode a JSON value into a Receipt: a non-object top level is an error
that leaves the receipt zero-valued; an object is folded key by key, errors
accumulating while decoding continues. -/
def decodeReceipt (j : Json) : Receipt × Bool :=
  match j with
  | .obj fields => fields.foldl decodeReceiptStep (zeroReceipt, false)
  | _ => (zeroReceipt, true)

/-- Result of the Decode call on the request body: `none` (not well-formed
JSON) yields a syntax error with the receipt untouched; otherwise the value
is unmarshalled as above.  The Bool is true when Decode returns a non-nil
error. -/
def decodeBody : Option Json → Receipt × Bool
  | none => (zeroReceipt, true)
  | some j => decodeReceipt j

/-! ### CreateReceipt handler (src/main.go lines 190-236) -/

/-- Outcome reported to the HTTP client by CreateReceipt. -/
inductive CreateOutcome
  | badRequest : CreateOutcome
  | created : String → CreateOutcome
deriving DecidableEq

/-- The validation-and-store part of CreateReceipt (src/main.go lines
195-236), applied to the decoded receipt value: the four checks run in
source order; any failure answers 400 and leaves the store alone; success
stamps the freshly generated identifier (passed in as `newID`; generation
itself happens only on this branch) and appends. -/
def processDecoded (newID : String) (receipt : Receipt) (store : List Receipt) :
    List Receipt × CreateOutcome :=
  if !CheckValidDescription receipt.Retailer then (store, .badRequest)
  else if !CheckValidTime receipt.PurchaseDate receipt.PurchaseTime then (store, .badRequest)
  else if !CheckItemsValidity receipt then (store, .badRequest)
  else if !CheckPriceValidity receipt.Total then (store, .badRequest)
  else
    let stored := { receipt with ID := newID }
    (store ++ [stored], .created newID)

/-- CreateReceipt (src/main.go lines 190-236): decode the body into the
zero-valued receipt, discard the decode error (line 193 assigns it to `_`),
then validate and store. -/
def CreateReceipt (newID : String) (body : Option Json) (store : List Receipt) :
    List Receipt × CreateOutcome :=
  processDecoded newID (decodeBody body).1 store

/-! ### Concrete receipts used by the claims -/

/-- The end-to-end example receipt of the spec. -/
def targetReceipt : Receipt :=
  { ID := "", Retailer := "Target", PurchaseDate := "2022-01-01",
    PurchaseTime := "13:01",
    Items := [⟨"Mountain Dew 12PK", "6.49"⟩, ⟨"Emils Cheese Pizza", "12.25"⟩,
      ⟨"Knorr Creamy Chicken", "1.26"⟩, ⟨"Doritos Nacho Cheese", "3.35"⟩,
      ⟨"   Klarbrunn 12-PK 12 FL OZ  ", "12.00"⟩],
    Total := "35.35" }

/-- A receipt that passes all four Validator checks yet scores -1: the
price pattern is unanchored at the front, so the item price "-5.00" is
accepted, parses to -5, and the description-length rule adds ceil(-1) = -1. -/
def negPriceReceipt : Receipt :=
  { ID := "", Retailer := "-", PurchaseDate := "2022-01-02",
    PurchaseTime := "13:01", Items := [⟨"abc", "-5.00"⟩], Total := "9.10" }

/-- The price of an item, when it parses, parses to a non-negative value. -/
def priceNonneg (item : Item) : Bool :=
  match ParseFloat item.Price with
  | some f => decide (0 ≤ f.num)
  | none => true

/-- A well-formed JSON body whose decode fails (the untagged ID field gets a
number, an UnmarshalTypeError) while every other field decodes and passes
validation. -/
def typeErrorBody : Json :=
  Json.obj [("ID", Json.num 5), ("retailer", Json.str "Target"),
    ("purchaseDate", Json.str "2022-01-01"), ("purchaseTime", Json.str "13:01"),
    ("items", Json.arr [Json.obj [("shortDescription", Json.str "Mountain Dew 12PK"),
      ("price", Json.str "6.49")]]),
    ("total", Json.str "9.00")]

/-- A JSON body that decodes cleanly to a receipt with an empty retailer
name, rejected by the first validation check. -/
def invalidBody : Json := Json.obj [("retailer", Json.str "")]

/-- A one-item receipt whose description earns no description-length points
(trimmed length 2). -/
def pairReceipt1 : Receipt := ⟨"", "", "", "", [⟨"ab", "1.00"⟩], ""⟩

/-- A two-item receipt whose descriptions earn no description-length points. -/
def pairReceipt2 : Receipt := ⟨"", "", "", "", [⟨"ab", "1.00"⟩, ⟨"cd", "1.00"⟩], ""⟩

/-- A four-item receipt whose descriptions earn no description-length points. -/
def pairReceipt4 : Receipt :=
  ⟨"", "", "", "",
    [⟨"ab", "1.00"⟩, ⟨"cd", "1.00"⟩, ⟨"ef", "1.00"⟩, ⟨"gh", "1.00"⟩], ""⟩

/-! ### Helper lemmas -/

theorem tmod_zero_iff_dvd (a n : Int) : a.tmod n = 0 ↔ n ∣ a :=
  ⟨Int.dvd_of_tmod_eq_zero, Int.tmod_eq_zero_of_dvd⟩

theorem itemLoop_split (l : List Item) : ∀ n : Nat,
    itemLoop n l =
      5 * (((n + l.length) / 2 - n / 2 : Nat) : Int) + (l.map itemDescPoints).sum := by
  induction l with
  | nil => intro n; simp [itemLoop]
  | cons x xs ih =>
    intro n
    simp only [itemLoop, ih (n + 1), List.map_cons, List.sum_cons, List.length_cons]
    by_cases h : (n + 1) % 2 = 0 <;> simp only [h, if_true, if_false, reduceIte] <;> omega

theorem parseDate_length (s : String) (h : parseDate s = true) : s.data.length = 10 := by
  unfold parseDate at h
  split at h
  · next heq => simp [heq]
  · exact absurd h (by simp)

theorem parseTime_length (s : String) (h : parseTime s = true) : 2 ≤ s.data.length := by
  unfold parseTime at h
  split at h
  · next c1 c2 rest heq => simp [heq]
  · exact absurd h (by simp)

theorem GetDatePoints_some (s : String) (h : 2 ≤ s.data.length) :
    ∃ d, GetDatePoints s = some d ∧ 0 ≤ d := by
  unfold GetDatePoints
  rw [if_neg (by omega)]
  cases hA : Atoi (s.data.drop (s.data.length - 2)) with
  | none => exact ⟨0, by simp [hA], le_refl 0⟩
  | some day =>
    by_cases hd : day.tmod 2 = 1
    · exact ⟨6, by simp [hA, hd], by omega⟩
    · exact ⟨0, by simp [hA, hd], le_refl 0⟩

theorem GetTimePoints_some (s : String) (h : 2 ≤ s.data.length) :
    ∃ t, GetTimePoints s = some t ∧ 0 ≤ t := by
  unfold GetTimePoints
  rw [if_neg (by omega)]
  cases hA : Atoi (s.data.take 2) with
  | none => exact ⟨0, by simp [hA], le_refl 0⟩
  | some hour =>
    by_cases hh : 14 ≤ hour ∧ hour < 16
    · exact ⟨10, by simp [hA, hh], by omega⟩
    · exact ⟨0, by simp [hA, hh], le_refl 0⟩

theorem goCeilDiv_nonneg (a b : Int) (ha : 0 ≤ a) (hb : 0 < b) : 0 ≤ goCeilDiv a b := by
  unfold goCeilDiv
  exact Int.fdiv_nonneg (by omega) (by omega)

theorem itemDescPoints_nonneg (item : Item) (h : priceNonneg item = true) :
    0 ≤ itemDescPoints item := by
  unfold priceNonneg at h
  unfold itemDescPoints
  cases hp : ParseFloat item.Price with
  | none => simp
  | some f =>
    rw [hp] at h
    have hnum : 0 ≤ f.num := by simpa using h
    dsimp only
    split
    · exact goCeilDiv_nonneg _ _ hnum (by positivity)
    · exact le_refl 0

theorem itemLoop_nonneg (l : List Item) (hl : ∀ item ∈ l, 0 ≤ itemDescPoints item) :
    ∀ n : Nat, 0 ≤ itemLoop n l := by
  induction l with
  | nil => intro n; simp [itemLoop]
  | cons x xs ih =>
    intro n
    have hx : 0 ≤ itemDescPoints x := hl x (List.mem_cons_self x xs)
    have hxs : 0 ≤ itemLoop (n + 1) xs :=
      ih (fun item hm => hl item (List.mem_cons_of_mem x hm)) (n + 1)
    simp only [itemLoop]
    by_cases h : (n + 1) % 2 = 0 <;> simp only [h, reduceIte] <;> omega

theorem GetTotalCostPoints_nonneg (s : String) : 0 ≤ GetTotalCostPoints s := by
  unfold GetTotalCostPoints
  cases ParseFloat s with
  | none => exact le_refl 0
  | some c => dsimp only; split <;> split <;> omega

theorem GetAlphanumeric_nonneg (s : String) : 0 ≤ GetAlphanumeric s := by
  unfold GetAlphanumeric
  exact Int.natCast_nonneg _

/-! ### The claims -/

/-- Claim C1: the Target example receipt scores exactly 28 points. -/
theorem claim1_target_receipt_scores_28 : GetReceiptPoints targetReceipt = some 28 := by
  decide

/-- Claim C2 counterexample: negPriceReceipt passes every Validator check
but GetReceiptPoints returns -1 < 0. -/
theorem claim2_cex_negative_score :
    (CheckValidDescription negPriceReceipt.Retailer = true ∧
      CheckValidTime negPriceReceipt.PurchaseDate negPriceReceipt.PurchaseTime = true ∧
      CheckItemsValidity negPriceReceipt = true ∧
      CheckPriceValidity negPriceReceipt.Total = true) ∧
    GetReceiptPoints negPriceReceipt = some (-1) ∧ ¬(0 ≤ (-1 : Int)) := by
  decide

/-- Claim C2 (amended): a receipt that passes all four Validator checks and
whose item prices, when they parse, parse to non-negative values, scores at
least 0 (and the computation returns a value). -/
theorem claim2_score_nonneg (receipt : Receipt)
    (_hRet : CheckValidDescription receipt.Retailer = true)
    (hTime : CheckValidTime receipt.PurchaseDate receipt.PurchaseTime = true)
    (_hItems : CheckItemsValidity receipt = true)
    (_hTotal : CheckPriceValidity receipt.Total = true)
    (hPrices : receipt.Items.all priceNonneg = true) :
    ∃ p : Int, GetReceiptPoints receipt = some p ∧ 0 ≤ p := by
  rw [CheckValidTime, Bool.and_eq_true] at hTime
  obtain ⟨hd, ht⟩ := hTime
  have hdl : 2 ≤ receipt.PurchaseDate.data.length := by
    rw [parseDate_length _ hd]; omega
  obtain ⟨d, hD, hd0⟩ := GetDatePoints_some _ hdl
  obtain ⟨t, hT, ht0⟩ := GetTimePoints_some _ (parseTime_length _ ht)
  refine ⟨GetAlphanumeric receipt.Retailer + GetTotalCostPoints receipt.Total +
    GetItemPoints receipt + d + t, ?_, ?_⟩
  · simp [GetReceiptPoints, hD, hT]
  · have h1 := GetAlphanumeric_nonneg receipt.Retailer
    have h2 := GetTotalCostPoints_nonneg receipt.Total
    rw [List.all_eq_true] at hPrices
    have h3 : 0 ≤ GetItemPoints receipt :=
      itemLoop_nonneg receipt.Items
        (fun item hm => itemDescPoints_nonneg item (hPrices item hm)) 0
    omega

/-- Claim C2 witness: the Target example receipt satisfies every hypothesis
and indeed scores a non-negative value. -/
theorem claim2_score_nonneg_witness :
    ∃ p : Int, GetReceiptPoints targetReceipt = some p ∧ 0 ≤ p :=
  claim2_score_nonneg targetReceipt (by decide) (by decide) (by decide)
    (by decide) (by decide)

/-- Claim C3 counterexample: "Emils Cheese Pizza" has trimmed length 18 (not
19), which is a multiple of 3, so with price "12.25" the item contributes
ceil(12.25 * 0.2) = 3, not 0. -/
theorem claim3_cex_emils_contributes :
    (goTrimSpace "Emils Cheese Pizza".data).length = 18 ∧
      ¬(itemDescPoints ⟨"Emils Cheese Pizza", "12.25"⟩ = 0) := by
  decide

/-- Claim C3 (amended): "Emils Cheese Pizza" has trimmed length 18, a
multiple of 3, so it contributes ceil(price * 0.2) description-length
points, which is 3 at price "12.25"; "Gatorade" (length 8) contributes 0
regardless of price; a trimmed description of length 12 with price "10.00"
contributes 2. -/
theorem claim3_description_length_rule :
    (goTrimSpace "Emils Cheese Pizza".data).length = 18 ∧
    (∀ price : String, ∀ f : GoFloat, ParseFloat price = some f →
      itemDescPoints ⟨"Emils Cheese Pizza", price⟩ =
        goCeilDiv f.num (5 * (10 : Int) ^ f.exp)) ∧
    itemDescPoints ⟨"Emils Cheese Pizza", "12.25"⟩ = 3 ∧
    (∀ price : String, itemDescPoints ⟨"Gatorade", price⟩ = 0) ∧
    itemDescPoints ⟨"BlueBerries1", "10.00"⟩ = 2 := by
  refine ⟨by decide, fun price f hf => ?_, by decide, fun price => ?_, by decide⟩
  · unfold itemDescPoints
    dsimp only
    rw [if_pos (by decide), hf]
  · unfold itemDescPoints
    dsimp only
    rw [if_neg (by decide)]

/-- Claim C3 witness: the general part instantiated at price "12.25". -/
theorem claim3_description_length_rule_witness :
    itemDescPoints ⟨"Emils Cheese Pizza", "12.25"⟩ =
      goCeilDiv (1225 : Int) (5 * (10 : Int) ^ 2) :=
  claim3_description_length_rule.2.1 "12.25" ⟨1225, 2⟩ (by decide)

/-- Claim C4: the total-amount rule rounds total*100 to integer cents (half
away from zero), adds 50 when cents is a multiple of 100 and, independently,
25 when cents is a multiple of 25; "9.00" gives 75, "9.10" gives 0, "9.25"
gives 25, and an unparseable total gives 0. -/
theorem claim4_total_cost_rule :
    (∀ s : String,
      GetTotalCostPoints s =
        match ParseFloat s with
        | some c =>
          (if (100 : Int) ∣ roundAway (c.num * 100) ((10 : Int) ^ c.exp) then 50 else 0) +
            (if (25 : Int) ∣ roundAway (c.num * 100) ((10 : Int) ^ c.exp) then 25 else 0)
        | none => 0) ∧
    GetTotalCostPoints "9.00" = 75 ∧ GetTotalCostPoints "9.10" = 0 ∧
      GetTotalCostPoints "9.25" = 25 ∧ GetTotalCostPoints "abc" = 0 := by
  refine ⟨fun s => ?_, by decide, by decide, by decide, by decide⟩
  unfold GetTotalCostPoints
  cases ParseFloat s with
  | none => rfl
  | some c => simp only [tmod_zero_iff_dvd]

/-- Claim C5: the price check is anchored only at the end. Any string
ending in digit, dot, digit, digit passes, whatever comes before. -/
theorem claim5_price_check_unanchored :
    (∀ (p : String) (d a b : Char), d.isDigit = true → a.isDigit = true →
      b.isDigit = true →
      CheckPriceValidity (p ++ String.mk [d, '.', a, b]) = true) ∧
    CheckPriceValidity "abc1.00" = true ∧ CheckPriceValidity "-5.00" = true := by
  refine ⟨fun p d a b hd ha hb => ?_, by decide, by decide⟩
  unfold CheckPriceValidity
  rw [String.data_append]
  simp [List.reverse_append, hd, ha, hb]

/-- Claim C5 witness: the general part instantiated at "xy" ++ "1.23". -/
theorem claim5_price_check_unanchored_witness :
    CheckPriceValidity ("xy" ++ String.mk ['1', '.', '2', '3']) = true :=
  claim5_price_check_unanchored.1 "xy" '1' '2' '3' (by decide) (by decide) (by decide)

/-- Claim C6: validation rejects a receipt with zero items, a total "10.0",
a purchase date "2022-13-01" and a purchase time "25:00". -/
theorem claim6_validation_rejections :
    (∀ receipt : Receipt, receipt.Items = [] → CheckItemsValidity receipt = false) ∧
    CheckPriceValidity "10.0" = false ∧
    CheckValidTime "2022-13-01" "13:01" = false ∧
    CheckValidTime "2022-01-01" "25:00" = false := by
  refine ⟨fun receipt h => ?_, by decide, by decide, by decide⟩
  simp [CheckItemsValidity, h]

/-- Claim C6 witness: a concrete zero-item receipt is rejected. -/
theorem claim6_validation_rejections_witness :
    CheckItemsValidity
      { ID := "", Retailer := "T", PurchaseDate := "2022-01-01",
        PurchaseTime := "13:01", Items := [], Total := "1.00" } = false :=
  claim6_validation_rejections.1 _ rfl

/-- Claim C7: a validated receipt never makes the scorer panic. The date
slice and time slice are in bounds, the whole computation returns a value,
and every numeric-parse failure inside a sub-rule contributes 0 instead of
aborting. -/
theorem claim7_score_never_panics :
    (∀ receipt : Receipt,
      CheckValidTime receipt.PurchaseDate receipt.PurchaseTime = true →
      receipt.PurchaseDate.data.length = 10 ∧
        2 ≤ receipt.PurchaseTime.data.length ∧
        ∃ p : Int, GetReceiptPoints receipt = some p) ∧
    (∀ s : String, ParseFloat s = none → GetTotalCostPoints s = 0) ∧
    (∀ item : Item, ParseFloat item.Price = none → itemDescPoints item = 0) ∧
    (∀ s : String, 2 ≤ s.data.length →
      Atoi (s.data.drop (s.data.length - 2)) = none → GetDatePoints s = some 0) ∧
    (∀ s : String, 2 ≤ s.data.length →
      Atoi (s.data.take 2) = none → GetTimePoints s = some 0) := by
  refine ⟨fun receipt hTime => ?_, fun s h => ?_, fun item h => ?_,
    fun s hl h => ?_, fun s hl h => ?_⟩
  · rw [CheckValidTime, Bool.and_eq_true] at hTime
    obtain ⟨hd, ht⟩ := hTime
    have hdl := parseDate_length _ hd
    have htl := parseTime_length _ ht
    obtain ⟨d, hD, -⟩ := GetDatePoints_some receipt.PurchaseDate (by omega)
    obtain ⟨t, hT, -⟩ := GetTimePoints_some receipt.PurchaseTime htl
    refine ⟨hdl, htl, GetAlphanumeric receipt.Retailer +
      GetTotalCostPoints receipt.Total + GetItemPoints receipt + d + t, ?_⟩
    simp [GetReceiptPoints, hD, hT]
  · simp [GetTotalCostPoints, h]
  · simp [itemDescPoints, h]
  · unfold GetDatePoints
    rw [if_neg (by omega), h]
  · unfold GetTimePoints
    rw [if_neg (by omega), h]

/-- Claim C7 witness: the first part instantiated at the Target example
receipt. -/
theorem claim7_score_never_panics_witness :
    targetReceipt.PurchaseDate.data.length = 10 ∧
      2 ≤ targetReceipt.PurchaseTime.data.length ∧
      ∃ p : Int, GetReceiptPoints targetReceipt = some p :=
  claim7_score_never_panics.1 targetReceipt (by decide)

/-- Any validation failure of the decoded receipt makes processDecoded
answer 400 with the store untouched. -/
theorem processDecoded_invalid (newID : String) (receipt : Receipt)
    (store : List Receipt)
    (h : CheckValidDescription receipt.Retailer = false ∨
      CheckValidTime receipt.PurchaseDate receipt.PurchaseTime = false ∨
      CheckItemsValidity receipt = false ∨
      CheckPriceValidity receipt.Total = false) :
    processDecoded newID receipt store = (store, CreateOutcome.badRequest) := by
  unfold processDecoded
  cases hd : CheckValidDescription receipt.Retailer with
  | false => simp [hd]
  | true =>
    cases ht : CheckValidTime receipt.PurchaseDate receipt.PurchaseTime with
    | false => simp [hd, ht]
    | true =>
      cases hi : CheckItemsValidity receipt with
      | false => simp [hd, ht, hi]
      | true =>
        cases hp : CheckPriceValidity receipt.Total with
        | false => simp [hd, ht, hi, hp]
        | true => rcases h with h | h | h | h <;> simp_all

/-- Claim C8 counterexample: the body typeErrorBody fails to decode (the
decode error flag is set by the wrong-typed ID field), yet the handler
stores the decoded receipt and answers with a fresh identifier, because
line 193 discards the decode error and the populated fields pass every
validation check. -/
theorem claim8_cex_ignored_decode_error :
    (decodeBody (some typeErrorBody)).2 = true ∧
    CreateReceipt "id0" (some typeErrorBody) [] =
      ([{ ID := "id0", Retailer := "Target", PurchaseDate := "2022-01-01",
          PurchaseTime := "13:01",
          Items := [⟨"Mountain Dew 12PK", "6.49"⟩], Total := "9.00" }],
        CreateOutcome.created "id0") := by
  decide

/-- Claim C8 (amended): whenever the decoded receipt value fails any of the
four validation checks, the handler answers 400 Bad Request and the receipt
store is left unchanged (no entry appended); in particular a body that is
not well-formed JSON, which leaves the receipt zero-valued, is always
rejected.  A decode error on a well-formed JSON object, however, is
discarded, and when the populated fields pass validation the receipt is
stored anyway (see the counterexample). -/
theorem claim8_invalid_leaves_store_unchanged :
    (∀ (newID : String) (body : Option Json) (store : List Receipt),
      (CheckValidDescription (decodeBody body).1.Retailer = false ∨
        CheckValidTime (decodeBody body).1.PurchaseDate
          (decodeBody body).1.PurchaseTime = false ∨
        CheckItemsValidity (decodeBody body).1 = false ∨
        CheckPriceValidity (decodeBody body).1.Total = false) →
      CreateReceipt newID body store = (store, CreateOutcome.badRequest)) ∧
    (∀ (newID : String) (store : List Receipt),
      CreateReceipt newID none store = (store, CreateOutcome.badRequest)) := by
  refine ⟨fun newID body store h => processDecoded_invalid newID _ store h,
    fun newID store => processDecoded_invalid newID zeroReceipt store (Or.inl (by decide))⟩

/-- Claim C8 witness: a concrete body decoding to an invalid receipt leaves
the store unchanged. -/
theorem claim8_invalid_leaves_store_unchanged_witness :
    CreateReceipt "id0" (some invalidBody) [] = ([], CreateOutcome.badRequest) :=
  claim8_invalid_leaves_store_unchanged.1 "id0" (some invalidBody) []
    (Or.inl (by decide))

/-- Claim C9: the pairing part of the item rule is worth 5 * floor(n / 2):
GetItemPoints always splits into 5 * (n / 2) plus the description-length
contributions, and receipts with 1, 2, 4 items (and no description points)
get 0, 5, 10. -/
theorem claim9_item_pair_rule :
    (∀ receipt : Receipt,
      GetItemPoints receipt =
        5 * ((receipt.Items.length / 2 : Nat) : Int) +
          (receipt.Items.map itemDescPoints).sum) ∧
    GetItemPoints pairReceipt1 = 0 ∧ GetItemPoints pairReceipt2 = 5 ∧
      GetItemPoints pairReceipt4 = 10 := by
  refine ⟨fun receipt => ?_, by decide, by decide, by decide⟩
  have h := itemLoop_split receipt.Items 0
  simpa [GetItemPoints] using h

/-- Claim C10: a single-digit hour such as "9:30" passes the time-format
validation, and the afternoon rule then contributes 0 without error because
the two-character slice "9:" fails integer parsing. -/
theorem claim10_lenient_hour :
    CheckValidTime "2022-01-01" "9:30" = true ∧
      Atoi ("9:30".data.take 2) = none ∧ GetTimePoints "9:30" = some 0 := by
  decide

end ReceiptAPI
